import Mathlib

/-!
Verification of the communication-bridge layer of the `ai_predictor` system
(`src/ai_predictor/src/communication/rust_bridge.py`, with the MEV detection
loop of `src/ai_predictor/src/main.py` and the configuration defaults of
`src/ai_predictor/src/config/settings.py`).

The Python code is shallowly embedded: Python dicts become ordered
association lists over a JSON-like `Value` type, the bridge object becomes an
explicit `BridgeState` record, coroutine methods become pure state-passing
functions, and the sender loop becomes a fold over an explicit schedule of
events (enqueues and transport-write outcomes).  Python floats are modelled
as rationals, timestamps as natural numbers of milliseconds.
-/

namespace RustBridge

/-- JSON-like values, the payloads of Python dict literals in the source. -/
inductive Value : Type where
  | vNull  : Value
  | vBool  : Bool → Value
  | vInt   : Int → Value
  | vRat   : ℚ → Value
  | vStr   : String → Value
  | vList  : List Value → Value
  | vObj   : List (String × Value) → Value

/-- A wire message: a Python dict, an insertion-ordered association list. -/
abbrev Msg : Type := List (String × Value)

/-- Python `d.get(k)`: the value of the first binding of `k`, if any. -/
def dictGet (m : Msg) (k : String) : Option Value :=
  (m.find? (fun p => p.1 = k)).map (fun p => p.2)

/-- Whether a top-level field named `k` is present in the message. -/
def hasField (m : Msg) (k : String) : Bool :=
  (dictGet m k).isSome

/-- Extract a string value. -/
def Value.asString : Value → Option String
  | .vStr s => some s
  | _ => none

/-- Python `message.get("type")` compared as a string tag. -/
def msgType (m : Msg) : Option String :=
  (dictGet m "type").bind Value.asString

/-- Correlation table: Python dict from request_id to a future (futures are
abstracted to identifiers). -/
abbrev FutureTable : Type := List (String × Nat)

/-- Python dict assignment `d[k] = v`: overwrites the binding if the key is
present (keeping its position), appends otherwise. -/
def tableAssign (d : FutureTable) (k : String) (v : Nat) : FutureTable :=
  if d.any (fun p => p.1 = k) then
    d.map (fun p => if p.1 = k then (k, v) else p)
  else
    d ++ [(k, v)]

/-- Python `del d[k]` / `d.pop(k)` on a key-unique dict: drop the binding. -/
def tableRemove (d : FutureTable) (k : String) : FutureTable :=
  d.filter (fun p => ¬ p.1 = k)

/-- Lookup in the correlation table. -/
def tableGet (d : FutureTable) (k : String) : Option Nat :=
  (d.find? (fun p => p.1 = k)).map (fun p => p.2)

/-- Python `request_id in d`. -/
def tableMem (d : FutureTable) (k : String) : Bool :=
  d.any (fun p => p.1 = k)

/-- The mutable state of a `RustBridge` instance: the `connected` flag, the
outbound FIFO queue (front at the head), the `response_futures` correlation
table, and the three counters. -/
structure BridgeState : Type where
  connected        : Bool
  outboundQueue    : List Msg
  responseFutures  : FutureTable
  messagesSent     : Nat
  messagesReceived : Nat
  connectionErrors : Nat

/-- The state of a freshly constructed bridge (`RustBridge.__init__`). -/
def initBridge : BridgeState :=
  { connected := false
    outboundQueue := []
    responseFutures := []
    messagesSent := 0
    messagesReceived := 0
    connectionErrors := 0 }

/-! ### Envelope constructors

Each definition transcribes one dict literal of the source, field for field
and in source order. -/

/-- Envelope of `send_prediction`: `{"type": "prediction", "data": asdict(prediction),
"timestamp": int(time.time() * 1000)}`. -/
def predictionEnvelope (data : Value) (nowMs : Nat) : Msg :=
  [("type", .vStr "prediction"), ("data", data), ("timestamp", .vInt nowMs)]

/-- Envelope of `send_mev_opportunity`: `{"type": "mev_opportunity", "data":
asdict(opportunity), "timestamp": int(time.time() * 1000)}`. -/
def mevOpportunityEnvelope (data : Value) (nowMs : Nat) : Msg :=
  [("type", .vStr "mev_opportunity"), ("data", data),
   ("timestamp", .vInt nowMs)]

/-- Envelope of `send_metrics`: `{"type": "metrics", "data": metrics, "timestamp":
int(time.time() * 1000)}`. -/
def metricsEnvelope (data : Value) (nowMs : Nat) : Msg :=
  [("type", .vStr "metrics"), ("data", data), ("timestamp", .vInt nowMs)]

/-- Envelope of `send_heartbeat`: `{"type": "heartbeat", "data": {"status": "alive",
"timestamp": ..., "messages_sent": ..., "messages_received": ...}}`.  Note
the source places the timestamp inside `data` and has no top-level
`timestamp` key. -/
def heartbeatEnvelope (nowMs sent received : Nat) : Msg :=
  [("type", .vStr "heartbeat"),
   ("data", .vObj
     [("status", .vStr "alive"), ("timestamp", .vInt nowMs),
      ("messages_sent", .vInt sent), ("messages_received", .vInt received)])]

/-- Request id of `get_performance_feedback`:
`f"feedback_{int(time.time())}"`, where `time.time()` has sub-second
resolution and `int` truncates to whole seconds.  The clock is modelled in
milliseconds, so `int(time.time())` is `tMs / 1000`. -/
def requestIdAt (tMs : Nat) : String :=
  "feedback_" ++ toString (tMs / 1000)

/-- Request envelope of `get_performance_feedback`: `{"type":
"request_feedback", "request_id": f"feedback_{int(time.time())}",
"timestamp": int(time.time() * 1000)}`.  Note there is no `data` key. -/
def feedbackRequestEnvelope (tMs : Nat) : Msg :=
  [("type", .vStr "request_feedback"),
   ("request_id", .vStr (requestIdAt tMs)),
   ("timestamp", .vInt (tMs))]

/-- The `status_response` envelope built in `_handle_received_message` for a
`status_request`: carries `connected: True` (a literal in the source) and
the three counters. -/
def statusResponseEnvelope (sent received errors : Nat) (nowMs : Nat) : Msg :=
  [("type", .vStr "status_response"),
   ("data", .vObj
     [("status", .vStr "running"), ("connected", .vBool true),
      ("messages_sent", .vInt sent), ("messages_received", .vInt received),
      ("connection_errors", .vInt errors)]),
   ("timestamp", .vInt nowMs)]

/-! ### Domain messages

Python floats are modelled as rationals.  The confidence comparisons the
claims exercise (0.75 / 0.85 against 0.8) are far from the rounding error of
IEEE doubles, so the rational model decides them exactly as Python does. -/

/-- Dataclass `PredictionMessage`, fields in source order. -/
structure PredictionMessage : Type where
  symbol          : String
  direction       : ℚ
  confidence      : ℚ
  time_horizon    : Int
  expected_move   : ℚ
  timestamp       : Int
  strategy_type   : String
  strategy_params : List (String × Value)
  model_version   : String
  features_used   : List String

/-- Python `asdict(prediction)`. -/
def predictionToValue (p : PredictionMessage) : Value :=
  .vObj
    [("symbol", .vStr p.symbol), ("direction", .vRat p.direction),
     ("confidence", .vRat p.confidence),
     ("time_horizon", .vInt p.time_horizon),
     ("expected_move", .vRat p.expected_move),
     ("timestamp", .vInt p.timestamp),
     ("strategy_type", .vStr p.strategy_type),
     ("strategy_params", .vObj p.strategy_params),
     ("model_version", .vStr p.model_version),
     ("features_used", .vList (p.features_used.map .vStr))]

/-- Dataclass `MEVOpportunityMessage`, fields in source order. -/
structure MEVOpportunityMessage : Type where
  symbol             : String
  opportunity_type   : String
  profit_potential   : ℚ
  gas_cost_estimate  : ℚ
  confidence         : ℚ
  time_sensitive     : Bool
  priority           : Int
  mempool_position   : Int
  block_prediction   : Int
  execution_strategy : String
  timestamp          : Int

/-- Python `asdict(opportunity)`. -/
def mevOpportunityToValue (o : MEVOpportunityMessage) : Value :=
  .vObj
    [("symbol", .vStr o.symbol),
     ("opportunity_type", .vStr o.opportunity_type),
     ("profit_potential", .vRat o.profit_potential),
     ("gas_cost_estimate", .vRat o.gas_cost_estimate),
     ("confidence", .vRat o.confidence),
     ("time_sensitive", .vBool o.time_sensitive),
     ("priority", .vInt o.priority),
     ("mempool_position", .vInt o.mempool_position),
     ("block_prediction", .vInt o.block_prediction),
     ("execution_strategy", .vStr o.execution_strategy),
     ("timestamp", .vInt o.timestamp)]

/-! ### Bridge operations -/

/-- Method `_send_message`: `await self.outbound_queue.put(message); return
True`.  The `try` wrapper returns `False` only if `put` raises, but `put` on
an unbounded `asyncio.Queue` never raises, so the embedding enqueues and
returns `True` unconditionally. -/
def sendMessage (s : BridgeState) (message : Msg) : Bool × BridgeState :=
  (true, { s with outboundQueue := s.outboundQueue ++ [message] })

/-- Method `send_prediction`: wrap in the envelope, hand to `_send_message`,
return its boolean. -/
def sendPrediction (s : BridgeState) (p : PredictionMessage) (nowMs : Nat) :
    Bool × BridgeState :=
  sendMessage s (predictionEnvelope (predictionToValue p) nowMs)

/-- Method `send_mev_opportunity`. -/
def sendMevOpportunity (s : BridgeState) (o : MEVOpportunityMessage)
    (nowMs : Nat) : Bool × BridgeState :=
  sendMessage s (mevOpportunityEnvelope (mevOpportunityToValue o) nowMs)

/-- Method `send_metrics` (payload is an arbitrary dict). -/
def sendMetrics (s : BridgeState) (metrics : Value) (nowMs : Nat) :
    Bool × BridgeState :=
  sendMessage s (metricsEnvelope metrics nowMs)

/-- Method `send_heartbeat`. -/
def sendHeartbeat (s : BridgeState) (nowMs : Nat) : Bool × BridgeState :=
  sendMessage s (heartbeatEnvelope nowMs s.messagesSent s.messagesReceived)

/-- Result of a Python call as seen by its caller: a returned value or a
propagated exception. -/
inductive PyOutcome (α : Type) : Type where
  | returns (a : α)
  | raises (exc : String)

/-- Outcome of the underlying transport connection attempt
(`_connect_websocket` / `_connect_redis` / `_connect_tcp`): it either
completes or raises the named exception. -/
inductive ConnectAttempt : Type where
  | succeeds
  | fails (exc : String)

/-- Method `connect`: one underlying attempt (no internal retry).  On
success set `connected`, start the loops, return `True`.  The `except
Exception` clause catches any failure, increments `connection_errors` and
returns `False` — it re-raises nothing. -/
def connect (attempt : ConnectAttempt) (s : BridgeState) :
    PyOutcome Bool × BridgeState :=
  match attempt with
  | .succeeds => (.returns true, { s with connected := true })
  | .fails _ =>
      (.returns false,
       { s with connectionErrors := s.connectionErrors + 1 })

/-- Outcome of one protocol-level write inside the sender loop. -/
inductive WriteOutcome : Type where
  | ok
  | fail (exc : String)

/-- One iteration of the `while self.connected` body of `_message_sender`,
given the transport outcome for the dequeued message.  An empty queue is the
`asyncio.TimeoutError` / `continue` branch.  On a write failure the `except
Exception` branch increments `connection_errors`, sleeps and continues: the
already-dequeued message is NOT re-enqueued.  `log` is the sequence of
messages written to the transport so far. -/
def senderStep (o : WriteOutcome) (s : BridgeState) (log : List Msg) :
    BridgeState × List Msg :=
  if s.connected then
    match s.outboundQueue with
    | [] => (s, log)
    | m :: rest =>
        match o with
        | .ok =>
            ({ s with outboundQueue := rest,
                      messagesSent := s.messagesSent + 1 }, log ++ [m])
        | .fail _ =>
            ({ s with outboundQueue := rest,
                      connectionErrors := s.connectionErrors + 1 }, log)
  else (s, log)

/-- An event of the queue's life: a producer enqueues (any of the `send_*`
methods, via `_send_message`), or the single sender-loop consumer runs one
iteration with a given write outcome. -/
inductive Event : Type where
  | enqueue (m : Msg)
  | senderIter (o : WriteOutcome)

/-- Interleaved execution of producers and the sender loop over a schedule
of events, threading the bridge state and the transport log. -/
def bridgeRun : List Event → BridgeState → List Msg → BridgeState × List Msg
  | [], s, log => (s, log)
  | .enqueue m :: evs, s, log => bridgeRun evs (sendMessage s m).2 log
  | .senderIter o :: evs, s, log =>
      let p := senderStep o s log
      bridgeRun evs p.1 p.2

/-- The messages enqueued over a schedule, in enqueue order. -/
def enqueuedOf : List Event → List Msg
  | [] => []
  | .enqueue m :: evs => m :: enqueuedOf evs
  | .senderIter _ :: evs => enqueuedOf evs

/-- Method `_handle_received_message`: dispatch on `message.get("type")`.
A `feedback_response` pops the pending entry for its `request_id` if present
and resolves the future (resolution is modelled by the removal; a second
response for the same id finds no entry and is a no-op).  A `config_update`
only logs.  A `status_request` enqueues one `status_response` via
`_send_message`.  Anything else only logs. -/
def handleReceivedMessage (s : BridgeState) (message : Msg) (nowMs : Nat) :
    BridgeState :=
  let mt := msgType message
  if mt = some "feedback_response" then
    match (dictGet message "request_id").bind Value.asString with
    | some rid =>
        if tableMem s.responseFutures rid then
          { s with responseFutures := tableRemove s.responseFutures rid }
        else s
    | none => s
  else if mt = some "config_update" then s
  else if mt = some "status_request" then
    (sendMessage s
      (statusResponseEnvelope s.messagesSent s.messagesReceived
        s.connectionErrors nowMs)).2
  else s

/-- Method `get_performance_feedback` at clock `tMs`, registering the fresh
future `fut`.  `response` says whether a matching `feedback_response`
resolved the future within the 5.0 s window: `some payload` is the resolved
case (the receiver already popped the table entry, modelled here by the
removal), `none` is the `asyncio.TimeoutError` case, where the method itself
runs `del self.response_futures[request_id]` and returns `None` instead of
raising. -/
def getPerformanceFeedback (s : BridgeState) (tMs : Nat) (fut : Nat)
    (response : Option Value) : Option Value × BridgeState :=
  let rid := requestIdAt tMs
  let message := feedbackRequestEnvelope tMs
  let s1 := { s with responseFutures := tableAssign s.responseFutures rid fut }
  let sent := sendMessage s1 message
  if sent.1 then
    match response with
    | some payload =>
        (some payload,
         { sent.2 with
             responseFutures := tableRemove sent.2.responseFutures rid })
    | none =>
        (none,
         { sent.2 with
             responseFutures := tableRemove sent.2.responseFutures rid })
  else (none, sent.2)

/-- Method `_receive_redis`: the body is only a comment (`Redis pubsub은 별도
구현 필요`, pubsub needs a separate implementation) and `return None`. -/
def receiveRedis (_s : BridgeState) : Option Msg :=
  none

/-- Default `MEVConfig.min_confidence` from `settings.py`: `0.8`. -/
def mevMinConfidenceDefault : ℚ := 8 / 10

/-- The inner loop of `mev_detection_loop` over one batch of detected
opportunities: each opportunity with `confidence > min_confidence` is sent
to the bridge (enqueued) and bumps `metrics["mev_opportunities_detected"]`;
the others are skipped. -/
def mevDetectionScan (minConfidence : ℚ) (nowMs : Nat)
    (opps : List MEVOpportunityMessage) (s : BridgeState) (detected : Nat) :
    BridgeState × Nat :=
  opps.foldl
    (fun acc opp =>
      if opp.confidence > minConfidence then
        ((sendMevOpportunity acc.1 opp nowMs).2, acc.2 + 1)
      else acc)
    (s, detected)

/-! ### Helper lemmas -/

/-- One sender iteration never reorders: the transport log followed by the
remaining queue is a sublist of what it was before the iteration (equal,
except that a failed write drops the dequeued message). -/
lemma senderStep_sublist (o : WriteOutcome) (s : BridgeState) (log : List Msg) :
    ((senderStep o s log).2 ++ (senderStep o s log).1.outboundQueue).Sublist
      (log ++ s.outboundQueue) := by
  unfold senderStep
  by_cases hc : s.connected
  · simp only [hc, if_true]
    cases hq : s.outboundQueue with
    | nil => simp [hq]
    | cons m rest =>
        cases o with
        | ok => simp [hq, List.append_assoc]
        | fail exc =>
            simp only [hq]
            exact (List.sublist_cons_self m rest).append_left log
  · simp [hc]

/-- Invariant of the interleaved run: the messages written so far followed
by the messages still queued form a sublist of the initial log-plus-queue
followed by everything enqueued during the run, in order. -/
lemma bridgeRun_sublist (evs : List Event) (s : BridgeState) (log : List Msg) :
    ((bridgeRun evs s log).2 ++ (bridgeRun evs s log).1.outboundQueue).Sublist
      ((log ++ s.outboundQueue) ++ enqueuedOf evs) := by
  induction evs generalizing s log with
  | nil => simp [bridgeRun, enqueuedOf]
  | cons ev evs ih =>
      cases ev with
      | enqueue m =>
          have h := ih { s with outboundQueue := s.outboundQueue ++ [m] } log
          simp only [bridgeRun, sendMessage, enqueuedOf]
          simpa [List.append_assoc] using h
      | senderIter o =>
          have h1 := ih (senderStep o s log).1 (senderStep o s log).2
          have h2 := (senderStep_sublist o s log).append_right (enqueuedOf evs)
          simp only [bridgeRun, enqueuedOf]
          exact h1.trans h2

/-- After removing a key, looking it up finds nothing. -/
lemma tableGet_tableRemove (d : FutureTable) (k : String) :
    tableGet (tableRemove d k) k = none := by
  have hnone : List.find? (fun p : String × Nat => p.1 = k) (tableRemove d k)
      = none := by
    rw [List.find?_eq_none]
    intro p hp
    have := List.of_mem_filter hp
    simpa using this
  unfold tableGet
  rw [hnone]
  rfl

/-- Overwriting the binding of a present key makes `find?` for that key
return the new binding. -/
lemma find_after_overwrite (d : FutureTable) (k : String) (v : Nat)
    (h : d.any (fun p => p.1 = k) = true) :
    List.find? (fun p : String × Nat => p.1 = k)
      (d.map (fun p => if p.1 = k then (k, v) else p)) = some (k, v) := by
  induction d with
  | nil => simp at h
  | cons p d ih =>
      by_cases hp : p.1 = k
      · simp [hp]
      · simp only [List.any_cons, Bool.or_eq_true, decide_eq_true_eq] at h
        have hd : d.any (fun p => p.1 = k) = true := by
          rcases h with h | h
          · exact absurd h hp
          · exact h
        simp only [List.map_cons, if_neg hp]
        rw [List.find?_cons_of_neg]
        · exact ih hd
        · simpa using hp

/-- After a dict assignment, looking up the key finds the assigned value. -/
lemma tableGet_tableAssign (d : FutureTable) (k : String) (v : Nat) :
    tableGet (tableAssign d k v) k = some v := by
  unfold tableGet tableAssign
  by_cases h : d.any (fun p => p.1 = k) = true
  · rw [if_pos h, find_after_overwrite d k v h]
    rfl
  · rw [if_neg h]
    have hnone : List.find? (fun p : String × Nat => p.1 = k) d = none := by
      rw [List.find?_eq_none]
      intro p hp hk
      exact h (List.any_eq_true.mpr ⟨p, hp, by simpa using hk⟩)
    rw [List.find?_append, hnone]
    simp

/-! ### Claims -/

/-- C1: for every two envelopes A and B enqueued on the outbound queue with
A enqueued before B, if both are written to the transport then A is written
before B.  Formally: over any interleaving of producer enqueues and
sender-loop iterations starting from an empty queue, the transport log is a
sublist of the sequence of enqueued messages in enqueue order — the single
consumer dequeues and writes strictly in FIFO order (a failed write may drop
a message, but never reorders). -/
theorem claim_C1_sender_fifo (evs : List Event) (s : BridgeState)
    (h : s.outboundQueue = []) :
    ((bridgeRun evs s []).2).Sublist (enqueuedOf evs) := by
  have h1 := bridgeRun_sublist evs s []
  rw [h] at h1
  have h2 : ((bridgeRun evs s []).2).Sublist
      ((bridgeRun evs s []).2 ++ (bridgeRun evs s []).1.outboundQueue) :=
    List.sublist_append_left _ _
  simpa using h2.trans h1

/-- Witness for C1 at a concrete schedule: one heartbeat enqueued, one
successful sender iteration. -/
theorem claim_C1_sender_fifo_witness :
    ((bridgeRun
        [Event.enqueue [("type", Value.vStr "heartbeat")],
         Event.senderIter WriteOutcome.ok]
        { initBridge with connected := true } []).2).Sublist
      (enqueuedOf
        [Event.enqueue [("type", Value.vStr "heartbeat")],
         Event.senderIter WriteOutcome.ok]) :=
  claim_C1_sender_fifo _ _ rfl

/-- C2: a `get_performance_feedback` call whose future is not resolved
within the 5.0 s window returns `None` (the `asyncio.TimeoutError` is caught,
nothing propagates) and afterwards `response_futures` no longer contains the
request_id. -/
theorem claim_C2_feedback_timeout (s : BridgeState) (tMs fut : Nat) :
    (getPerformanceFeedback s tMs fut none).1 = none ∧
    tableGet (getPerformanceFeedback s tMs fut none).2.responseFutures
      (requestIdAt tMs) = none := by
  refine ⟨rfl, ?_⟩
  exact tableGet_tableRemove _ _

/-- C3: a received `status_request` envelope enqueues exactly one
`status_response` (and changes nothing else in the bridge state); the
response's data carries `connected = true` and the current values of the
three counters. -/
theorem claim_C3_status_request (s : BridgeState) (message : Msg)
    (nowMs : Nat) (h : msgType message = some "status_request") :
    handleReceivedMessage s message nowMs
      = { s with outboundQueue := s.outboundQueue
            ++ [statusResponseEnvelope s.messagesSent s.messagesReceived
                  s.connectionErrors nowMs] } ∧
    msgType (statusResponseEnvelope s.messagesSent s.messagesReceived
        s.connectionErrors nowMs) = some "status_response" ∧
    dictGet (statusResponseEnvelope s.messagesSent s.messagesReceived
        s.connectionErrors nowMs) "data"
      = some (.vObj
          [("status", .vStr "running"), ("connected", .vBool true),
           ("messages_sent", .vInt s.messagesSent),
           ("messages_received", .vInt s.messagesReceived),
           ("connection_errors", .vInt s.connectionErrors)]) := by
  refine ⟨?_, rfl, rfl⟩
  unfold handleReceivedMessage
  rw [h]
  simp [sendMessage]

/-- Witness for C3: a concrete `status_request` against the fresh bridge. -/
theorem claim_C3_status_request_witness :
    handleReceivedMessage initBridge [("type", Value.vStr "status_request")] 42
      = { initBridge with outboundQueue := initBridge.outboundQueue
            ++ [statusResponseEnvelope initBridge.messagesSent
                  initBridge.messagesReceived initBridge.connectionErrors 42] } ∧
    msgType (statusResponseEnvelope initBridge.messagesSent
        initBridge.messagesReceived initBridge.connectionErrors 42)
      = some "status_response" ∧
    dictGet (statusResponseEnvelope initBridge.messagesSent
        initBridge.messagesReceived initBridge.connectionErrors 42) "data"
      = some (.vObj
          [("status", .vStr "running"), ("connected", .vBool true),
           ("messages_sent", .vInt initBridge.messagesSent),
           ("messages_received", .vInt initBridge.messagesReceived),
           ("connection_errors", .vInt initBridge.connectionErrors)]) :=
  claim_C3_status_request initBridge [("type", Value.vStr "status_request")]
    42 rfl

/-- Counterexample to C4 as stated: when the underlying connection attempt
fails, `connect` does not surface a `ConnectionError` (or anything else) to
its caller — the `except Exception` clause swallows the failure and the call
returns `False`. -/
theorem claim_C4_counterexample :
    ¬ ∃ exc, (connect (ConnectAttempt.fails "OSError: connection refused")
        initBridge).1 = PyOutcome.raises exc := by
  rintro ⟨exc, hexc⟩
  simp [connect] at hexc

/-- C4 amended: when the underlying connection attempt fails, `connect`
catches the exception and returns `False` to its caller (it raises nothing),
increments `connection_errors` by exactly one, changes nothing else, and
makes no further attempt (it consumes a single underlying attempt). -/
theorem claim_C4_connect_failure (s : BridgeState) (exc : String) :
    connect (ConnectAttempt.fails exc) s
      = (PyOutcome.returns false,
         { s with connectionErrors := s.connectionErrors + 1 }) :=
  rfl

/-- Counterexample to C5 as stated: with four messages enqueued and a
write schedule of three failures then one success, the error counter does
read 3 and the loop is still running (`connected` still true), but the first
three messages are permanently lost — the transport log holds only the
fourth message and the queue is empty, so the first message is gone. -/
theorem claim_C5_counterexample :
    bridgeRun
        [Event.enqueue [("id", Value.vInt 1)],
         Event.enqueue [("id", Value.vInt 2)],
         Event.enqueue [("id", Value.vInt 3)],
         Event.enqueue [("id", Value.vInt 4)],
         Event.senderIter (WriteOutcome.fail "write failed"),
         Event.senderIter (WriteOutcome.fail "write failed"),
         Event.senderIter (WriteOutcome.fail "write failed"),
         Event.senderIter WriteOutcome.ok]
        { initBridge with connected := true } []
      = ({ connected := true, outboundQueue := [], responseFutures := [],
           messagesSent := 1, messagesReceived := 0, connectionErrors := 3 },
         [[("id", Value.vInt 4)]]) ∧
    [("id", Value.vInt 1)] ∉ [[("id", Value.vInt 4)]] := by
  refine ⟨rfl, ?_⟩
  simp

/-- C5 amended: after three consecutive write failures followed by a
success, the sender error counter has grown by exactly 3, the loop is still
running (`connected` is untouched, so the `while self.connected` guard still
holds), and the fourth message is delivered; the three messages whose writes
failed are dropped (dequeued and not re-enqueued), not redelivered. -/
theorem claim_C5_three_failures (m1 m2 m3 m4 : Msg) (q : FutureTable)
    (n r e : Nat) :
    bridgeRun
        [Event.enqueue m1, Event.enqueue m2, Event.enqueue m3,
         Event.enqueue m4,
         Event.senderIter (WriteOutcome.fail "write failed"),
         Event.senderIter (WriteOutcome.fail "write failed"),
         Event.senderIter (WriteOutcome.fail "write failed"),
         Event.senderIter WriteOutcome.ok]
        { connected := true, outboundQueue := [], responseFutures := q,
          messagesSent := n, messagesReceived := r, connectionErrors := e } []
      = ({ connected := true, outboundQueue := [], responseFutures := q,
           messagesSent := n + 1, messagesReceived := r,
           connectionErrors := e + 3 }, [m4]) :=
  rfl

/-- Counterexample to C6 as stated: the heartbeat envelope has no top-level
`timestamp` field (its timestamp sits inside `data`), and the feedback
request envelope has no `data` field at all. -/
theorem claim_C6_counterexample :
    hasField (heartbeatEnvelope 1700000000000 5 7) "timestamp" = false ∧
    hasField (feedbackRequestEnvelope 1700000000000) "data" = false :=
  ⟨rfl, rfl⟩

/-- C6 amended: the envelopes of `send_prediction`, `send_mev_opportunity`
and `send_metrics` carry all three top-level fields `type`, `data` and
`timestamp`; the heartbeat envelope carries `type` and `data` but no
top-level `timestamp`; the feedback request carries `type`, `request_id` and
`timestamp` but no `data`. -/
theorem claim_C6_envelope_fields (d metrics : Value)
    (nowMs sent received tMs : Nat) :
    (hasField (predictionEnvelope d nowMs) "type" = true ∧
     hasField (predictionEnvelope d nowMs) "data" = true ∧
     hasField (predictionEnvelope d nowMs) "timestamp" = true) ∧
    (hasField (mevOpportunityEnvelope d nowMs) "type" = true ∧
     hasField (mevOpportunityEnvelope d nowMs) "data" = true ∧
     hasField (mevOpportunityEnvelope d nowMs) "timestamp" = true) ∧
    (hasField (metricsEnvelope metrics nowMs) "type" = true ∧
     hasField (metricsEnvelope metrics nowMs) "data" = true ∧
     hasField (metricsEnvelope metrics nowMs) "timestamp" = true) ∧
    (hasField (heartbeatEnvelope nowMs sent received) "type" = true ∧
     hasField (heartbeatEnvelope nowMs sent received) "data" = true ∧
     hasField (heartbeatEnvelope nowMs sent received) "timestamp" = false) ∧
    (hasField (feedbackRequestEnvelope tMs) "type" = true ∧
     hasField (feedbackRequestEnvelope tMs) "request_id" = true ∧
     hasField (feedbackRequestEnvelope tMs) "timestamp" = true ∧
     hasField (feedbackRequestEnvelope tMs) "data" = false) :=
  ⟨⟨rfl, rfl, rfl⟩, ⟨rfl, rfl, rfl⟩, ⟨rfl, rfl, rfl⟩, ⟨rfl, rfl, rfl⟩,
   rfl, rfl, rfl, rfl⟩

/-- Counterexample to C7 as stated: request ids come from
`int(time.time())`, the clock truncated to whole seconds, so two feedback
requests issued at distinct instants of the same second (here 100.100 s and
100.900 s) share the request_id, and the second registration overwrites the
first one's pending slot in the correlation table. -/
theorem claim_C7_counterexample :
    (100100 : Nat) ≠ 100900 ∧
    requestIdAt 100100 = requestIdAt 100900 ∧
    tableAssign (tableAssign [] (requestIdAt 100100) 1) (requestIdAt 100900) 2
      = [(requestIdAt 100100, 2)] :=
  ⟨by decide, rfl, rfl⟩

/-- C7 amended: request ids are derived from the whole-second clock, so two
requests within the same second share the id and the later registration
overwrites the earlier pending slot (the table keeps a single binding per
id, holding the later future); each pending entry is still resolved at most
once and is removed from the table when the call resolves or times out. -/
theorem claim_C7_same_second (tMs1 tMs2 : Nat)
    (h : tMs1 / 1000 = tMs2 / 1000) (d : FutureTable) (f1 f2 : Nat)
    (s : BridgeState) (fut : Nat) (response : Option Value) :
    requestIdAt tMs1 = requestIdAt tMs2 ∧
    tableGet (tableAssign (tableAssign d (requestIdAt tMs1) f1)
        (requestIdAt tMs2) f2) (requestIdAt tMs1) = some f2 ∧
    tableGet (getPerformanceFeedback s tMs1 fut response).2.responseFutures
        (requestIdAt tMs1) = none := by
  have hid : requestIdAt tMs1 = requestIdAt tMs2 := by
    unfold requestIdAt
    rw [h]
  refine ⟨hid, ?_, ?_⟩
  · rw [hid]
    exact tableGet_tableAssign _ _ _
  · cases response with
    | none => exact tableGet_tableRemove _ _
    | some payload => exact tableGet_tableRemove _ _

/-- Witness for C7 amended, at two instants of second 200. -/
theorem claim_C7_same_second_witness :
    requestIdAt 200100 = requestIdAt 200900 ∧
    tableGet (tableAssign (tableAssign [] (requestIdAt 200100) 1)
        (requestIdAt 200900) 2) (requestIdAt 200100) = some 2 ∧
    tableGet
        (getPerformanceFeedback initBridge 200100 3 none).2.responseFutures
        (requestIdAt 200100) = none :=
  claim_C7_same_second 200100 200900 (by decide) [] 1 2 initBridge 3 none

/-- C8: for the publish/subscribe (Redis) transport variant, the inbound
receive operation returns no message for every bridge state — the source's
`_receive_redis` body is only a `return None`, so no published inbound
message is ever returned.  The spec explicitly requires a real dedicated
subscriber here and flags the source as an implementation gap. -/
theorem claim_C8_receive_redis_none (s : BridgeState) :
    receiveRedis s = none :=
  rfl

/-- C9: with the confidence threshold at its configured default 0.8, an
opportunity with confidence 0.75 is filtered out — the bridge state and the
`mev_opportunities_detected` counter are unchanged — while an opportunity
with confidence 0.85 is enqueued to the bridge and the counter increments by
exactly 1. -/
theorem claim_C9_mev_filter (s : BridgeState) (detected : Nat) (nowMs : Nat)
    (lowOpp highOpp : MEVOpportunityMessage)
    (hlow : lowOpp.confidence = 75 / 100)
    (hhigh : highOpp.confidence = 85 / 100) :
    mevDetectionScan mevMinConfidenceDefault nowMs [lowOpp] s detected
      = (s, detected) ∧
    mevDetectionScan mevMinConfidenceDefault nowMs [highOpp] s detected
      = ({ s with outboundQueue := s.outboundQueue
            ++ [mevOpportunityEnvelope (mevOpportunityToValue highOpp)
                  nowMs] },
         detected + 1) := by
  constructor
  · simp only [mevDetectionScan, List.foldl, hlow, mevMinConfidenceDefault]
    norm_num
  · simp only [mevDetectionScan, List.foldl, hhigh, mevMinConfidenceDefault,
      sendMevOpportunity, sendMessage]
    norm_num

/-- An opportunity below the default threshold (confidence 0.75). -/
def lowConfidenceOpp : MEVOpportunityMessage :=
  { symbol := "ETH/USDT", opportunity_type := "sandwich",
    profit_potential := 1, gas_cost_estimate := 1 / 100,
    confidence := 75 / 100, time_sensitive := true, priority := 5,
    mempool_position := 0, block_prediction := 0,
    execution_strategy := "fast", timestamp := 0 }

/-- An opportunity above the default threshold (confidence 0.85). -/
def highConfidenceOpp : MEVOpportunityMessage :=
  { symbol := "ETH/USDT", opportunity_type := "arbitrage",
    profit_potential := 1, gas_cost_estimate := 1 / 100,
    confidence := 85 / 100, time_sensitive := true, priority := 5,
    mempool_position := 0, block_prediction := 0,
    execution_strategy := "fast", timestamp := 0 }

/-- Witness for C9 at the two concrete opportunities. -/
theorem claim_C9_mev_filter_witness :
    mevDetectionScan mevMinConfidenceDefault 0 [lowConfidenceOpp]
        initBridge 0 = (initBridge, 0) ∧
    mevDetectionScan mevMinConfidenceDefault 0 [highConfidenceOpp]
        initBridge 0
      = ({ initBridge with outboundQueue := initBridge.outboundQueue
            ++ [mevOpportunityEnvelope
                  (mevOpportunityToValue highConfidenceOpp) 0] },
         0 + 1) :=
  claim_C9_mev_filter initBridge 0 0 lowConfidenceOpp highConfidenceOpp
    rfl rfl

/-- C10: each of the four send operations returns `True` for every bridge
state — in particular also when `connected` is false — and its whole effect
is to append the envelope to the unbounded outbound queue, an operation that
cannot fail; the boolean never reports delivery to the counterpart. -/
theorem claim_C10_send_ops_return_true (s : BridgeState)
    (p : PredictionMessage) (o : MEVOpportunityMessage) (metrics : Value)
    (nowMs : Nat) :
    sendPrediction s p nowMs
      = (true, { s with outboundQueue := s.outboundQueue
          ++ [predictionEnvelope (predictionToValue p) nowMs] }) ∧
    sendMevOpportunity s o nowMs
      = (true, { s with outboundQueue := s.outboundQueue
          ++ [mevOpportunityEnvelope (mevOpportunityToValue o) nowMs] }) ∧
    sendMetrics s metrics nowMs
      = (true, { s with outboundQueue := s.outboundQueue
          ++ [metricsEnvelope metrics nowMs] }) ∧
    sendHeartbeat s nowMs
      = (true, { s with outboundQueue := s.outboundQueue
          ++ [heartbeatEnvelope nowMs s.messagesSent s.messagesReceived] }) :=
  ⟨rfl, rfl, rfl, rfl⟩

end RustBridge
